import Mathlib

/-!
Verification of the syndesis operator's configuration resolution engine and
of the virtualization action container.

The `Config` data model is transcribed from the structure literals in
`install/operator/pkg/syndesis/configuration/configuration_test.go`
(`getConfigLiteral` and the test tables).  The resolution-stage operations
(`loadFromFile`, `setConfigFromEnv`, `setSyndesisFromCustomResource`,
`generatePasswords`, `SetRoute`, `setBoolFromEnv`) live in
`configuration.go`, which is not among the analysed sources; following the
design document they are modelled from the spec, with the process
environment, the cluster client and the random source supplied as explicit
parameters (as the spec's design notes themselves prescribe for
testability).  Go zero values become Lean structure-field defaults.

The action container (`getActions`) is transcribed from the
`VirtualizationActionContainer` component source.
-/

namespace Syndesis

/-- Resource sizing holding only a memory request (Go `Resources`). -/
structure Resources where
  Memory : String := ""
deriving DecidableEq

/-- Resource sizing with memory and a volume capacity (Go `ResourcesWithVolume`). -/
structure ResourcesWithVolume where
  Memory : String := ""
  VolumeCapacity : String := ""
deriving DecidableEq

/-- Resource sizing carrying only a volume capacity (Go `VolumeOnlyResources`). -/
structure VolumeOnlyResources where
  VolumeCapacity : String := ""
deriving DecidableEq

/-- The tracing (Jaeger) add-on block. -/
structure JaegerConfiguration where
  Enabled : Bool := false
  SamplerType : String := ""
  SamplerParam : String := ""
deriving DecidableEq

/-- A plain add-on carrying only its enabled flag (Go `AddonConfiguration`). -/
structure AddonConfiguration where
  Enabled : Bool := false
deriving DecidableEq

/-- The data-virtualization add-on block. -/
structure DvConfiguration where
  Enabled : Bool := false
  Resources : Resources := {}
  Image : String := ""
deriving DecidableEq

/-- The camel-K add-on block. -/
structure CamelKConfiguration where
  Enabled : Bool := false
  CamelVersion : String := ""
  CamelKRuntime : String := ""
  Image : String := ""
deriving DecidableEq

/-- One entry per optional add-on. -/
structure AddonsSpec where
  Jaeger : JaegerConfiguration := {}
  Ops : AddonConfiguration := {}
  Todo : AddonConfiguration := {}
  Knative : AddonConfiguration := {}
  DV : DvConfiguration := {}
  CamelK : CamelKConfiguration := {}
deriving DecidableEq

/-- The auth-proxy component. -/
structure OauthConfiguration where
  Image : String := ""
  CookieSecret : String := ""
deriving DecidableEq

/-- The UI server component. -/
structure UIConfiguration where
  Image : String := ""
deriving DecidableEq

/-- The build (source-to-image) tool component. -/
structure S2IConfiguration where
  Image : String := ""
deriving DecidableEq

/-- The metrics collector component. -/
structure PrometheusConfiguration where
  Image : String := ""
  Resources : ResourcesWithVolume := {}
deriving DecidableEq

/-- The upgrade job component. -/
structure UpgradeConfiguration where
  Image : String := ""
  Resources : VolumeOnlyResources := {}
deriving DecidableEq

/-- The metadata service component. -/
structure MetaConfiguration where
  Image : String := ""
  Resources : ResourcesWithVolume := {}
deriving DecidableEq

/-- The database metrics exporter sidecar. -/
structure ExporterConfiguration where
  Image : String := ""
deriving DecidableEq

/-- The database component. -/
structure DatabaseConfiguration where
  ImageStreamNamespace : String := ""
  Image : String := ""
  User : String := ""
  Name : String := ""
  URL : String := ""
  Password : String := ""
  SampledbPassword : String := ""
  Exporter : ExporterConfiguration := {}
  Resources : ResourcesWithVolume := {}
deriving DecidableEq

/-- The backend server's feature flags.  The maven repository map is kept as
an association list, in document order. -/
structure ServerFeatures where
  IntegrationLimit : Nat := 0
  IntegrationStateCheckInterval : Nat := 0
  DemoData : Bool := false
  DeployIntegrations : Bool := false
  TestSupport : Bool := false
  OpenShiftMaster : String := ""
  MavenRepositories : List (String × String) := []
deriving DecidableEq

/-- The backend server component. -/
structure ServerConfiguration where
  Image : String := ""
  ControllersIntegrationEnabled : Bool := false
  SyndesisEncryptKey : String := ""
  ClientStateAuthenticationKey : String := ""
  ClientStateEncryptionKey : String := ""
  Resources : Resources := {}
  Features : ServerFeatures := {}
deriving DecidableEq

/-- One entry per deployable workload. -/
structure ComponentsSpec where
  Oauth : OauthConfiguration := {}
  UI : UIConfiguration := {}
  S2I : S2IConfiguration := {}
  Server : ServerConfiguration := {}
  Meta : MetaConfiguration := {}
  Database : DatabaseConfiguration := {}
  Prometheus : PrometheusConfiguration := {}
  Upgrade : UpgradeConfiguration := {}
deriving DecidableEq

/-- The nested syndesis block of the configuration. -/
structure SyndesisConfig where
  Addons : AddonsSpec := {}
  Components : ComponentsSpec := {}
deriving DecidableEq

/-- The root configuration aggregate (Go `Config`). -/
structure Config where
  ProductName : String := ""
  AllowLocalHost : Bool := false
  Productized : Bool := false
  DevSupport : Bool := false
  Scheduled : Bool := false
  ImageStreamNamespace : String := ""
  PrometheusRules : String := ""
  OpenShiftProject : String := ""
  OpenShiftOauthClientSecret : String := ""
  RouteHostname : String := ""
  OpenShiftConsoleUrl : String := ""
  Syndesis : SyndesisConfig := {}
deriving DecidableEq

/-- The configuration as loaded from the base configuration document,
transcribed field for field from the test file's `getConfigLiteral`. -/
def getConfigLiteral : Config :=
  { ProductName := "syndesis"
    AllowLocalHost := false
    Productized := false
    DevSupport := false
    Scheduled := true
    ImageStreamNamespace := ""
    PrometheusRules := ""
    OpenShiftProject := ""
    OpenShiftOauthClientSecret := ""
    RouteHostname := ""
    OpenShiftConsoleUrl := ""
    Syndesis :=
      { Addons :=
          { Jaeger :=
              { Enabled := false
                SamplerType := "const"
                SamplerParam := "0" }
            Ops := { Enabled := false }
            Todo := { Enabled := false }
            DV :=
              { Enabled := false
                Image := "docker.io/teiid/syndesis-dv:latest"
                Resources := { Memory := "1024Mi" } }
            CamelK :=
              { Enabled := false
                CamelVersion := "2.21.0.fuse-760011"
                CamelKRuntime := "0.3.4.fuse-740008"
                Image := "fabric8/s2i-java:3.0-java8" } }
        Components :=
          { Oauth := { Image := "quay.io/openshift/origin-oauth-proxy:v4.0.0" }
            UI := { Image := "docker.io/syndesis/syndesis-ui:latest" }
            S2I := { Image := "docker.io/syndesis/syndesis-s2i:latest" }
            Server :=
              { Image := "docker.io/syndesis/syndesis-server:latest"
                ControllersIntegrationEnabled := true
                Resources := { Memory := "800Mi" }
                Features :=
                  { IntegrationLimit := 0
                    IntegrationStateCheckInterval := 60
                    DemoData := false
                    DeployIntegrations := true
                    TestSupport := false
                    OpenShiftMaster := "https://localhost:8443"
                    MavenRepositories :=
                      [("central", "https://repo.maven.apache.org/maven2/"),
                       ("repo-02-redhat-ga", "https://maven.repository.redhat.com/ga/"),
                       ("repo-03-jboss-ea", "https://repository.jboss.org/nexus/content/groups/ea/")] } }
            Meta :=
              { Image := "docker.io/syndesis/syndesis-meta:latest"
                Resources :=
                  { Memory := "512Mi"
                    VolumeCapacity := "1Gi" } }
            Database :=
              { ImageStreamNamespace := "openshift"
                Image := "postgresql:9.6"
                User := "syndesis"
                Name := "syndesis"
                URL := "postgresql://syndesis-db:5432/syndesis?sslmode=disable"
                Exporter := { Image := "docker.io/wrouesnel/postgres_exporter:v0.4.7" }
                Resources :=
                  { Memory := "255Mi"
                    VolumeCapacity := "1Gi" } }
            Prometheus :=
              { Image := "docker.io/prom/prometheus:v2.1.0"
                Resources :=
                  { Memory := "512Mi"
                    VolumeCapacity := "1Gi" } }
            Upgrade :=
              { Image := "docker.io/syndesis/syndesis-upgrade:latest"
                Resources := { VolumeCapacity := "1Gi" } } } } }

/-- The process environment, injected explicitly as the spec's design notes
prescribe: a map from variable name to its value, `none` meaning unset. -/
abbrev EnvMap := String → Option String

/-- Modelled from the spec: the tri-state boolean environment read
(`setBoolFromEnv` of `configuration.go`, absent from the analysed sources).
Variable absent → current value unchanged; present with the literal
`"true"` → `true`; present with any other value → `false`. -/
def setBoolFromEnv (env : EnvMap) (name : String) (current : Bool) : Bool :=
  match env name with
  | none => current
  | some v => v == "true"

/-- Modelled from the spec: a string environment read used by the
Environment Overlay (`configuration.go` is absent from the analysed
sources).  A present variable overwrites the field with its value; an unset
variable never alters its field. -/
def setStringFromEnv (env : EnvMap) (name : String) (current : String) : String :=
  match env name with
  | none => current
  | some v => v

/-- Modelled from the spec: the Environment Overlay (`setConfigFromEnv` of
`configuration.go`, absent from the analysed sources).  It mutates the
defined allow-list of recognized variables onto their fields — the image
references of every component, the database image-stream namespace, the
boolean feature flags and the route hostname — exactly the variables
exercised by `Test_setConfigFromEnv`. -/
def setConfigFromEnv (env : EnvMap) (c : Config) : Config :=
  { c with
    DevSupport := setBoolFromEnv env "DEV_SUPPORT" c.DevSupport
    RouteHostname := setStringFromEnv env "ROUTE_HOSTNAME" c.RouteHostname
    Syndesis :=
      { c.Syndesis with
        Addons :=
          { c.Syndesis.Addons with
            DV :=
              { c.Syndesis.Addons.DV with
                Image := setStringFromEnv env "DV_IMAGE" c.Syndesis.Addons.DV.Image } }
        Components :=
          { c.Syndesis.Components with
            Oauth :=
              { c.Syndesis.Components.Oauth with
                Image := setStringFromEnv env "OAUTH_IMAGE" c.Syndesis.Components.Oauth.Image }
            UI :=
              { c.Syndesis.Components.UI with
                Image := setStringFromEnv env "UI_IMAGE" c.Syndesis.Components.UI.Image }
            S2I :=
              { c.Syndesis.Components.S2I with
                Image := setStringFromEnv env "S2I_IMAGE" c.Syndesis.Components.S2I.Image }
            Prometheus :=
              { c.Syndesis.Components.Prometheus with
                Image := setStringFromEnv env "PROMETHEUS_IMAGE"
                  c.Syndesis.Components.Prometheus.Image }
            Upgrade :=
              { c.Syndesis.Components.Upgrade with
                Image := setStringFromEnv env "UPGRADE_IMAGE"
                  c.Syndesis.Components.Upgrade.Image }
            Meta :=
              { c.Syndesis.Components.Meta with
                Image := setStringFromEnv env "META_IMAGE" c.Syndesis.Components.Meta.Image }
            Database :=
              { c.Syndesis.Components.Database with
                Image := setStringFromEnv env "DATABASE_IMAGE"
                  c.Syndesis.Components.Database.Image
                ImageStreamNamespace := setStringFromEnv env "DATABASE_NAMESPACE"
                  c.Syndesis.Components.Database.ImageStreamNamespace
                Exporter :=
                  { c.Syndesis.Components.Database.Exporter with
                    Image := setStringFromEnv env "PSQL_EXPORTER_IMAGE"
                      c.Syndesis.Components.Database.Exporter.Image } }
            Server :=
              { c.Syndesis.Components.Server with
                Image := setStringFromEnv env "SERVER_IMAGE"
                  c.Syndesis.Components.Server.Image
                Features :=
                  { c.Syndesis.Components.Server.Features with
                    TestSupport := setBoolFromEnv env "TEST_SUPPORT"
                      c.Syndesis.Components.Server.Features.TestSupport } } } } }

/-! ## The custom-resource document

The user-authored desired-state document (`v1alpha1.Syndesis`).  Its shape
is the strict subset of the `Configuration` shape exercised by
`Test_setSyndesisFromCustomResource`: per-add-on blocks carrying the
enabled flag and the user-expressible fields; image references and the
like are deliberately absent. -/

/-- The custom resource's tracing add-on block. -/
structure CrJaegerConfiguration where
  Enabled : Bool := false
  SamplerType : String := ""
  SamplerParam : String := ""
deriving DecidableEq

/-- The custom resource's plain add-on block (Go `v1alpha1.AddonSpec`). -/
structure CrAddonSpec where
  Enabled : Bool := false
deriving DecidableEq

/-- The custom resource's data-virtualization add-on block. -/
structure CrDvConfiguration where
  Enabled : Bool := false
  Resources : Resources := {}
deriving DecidableEq

/-- The custom resource's camel-K add-on block. -/
structure CrCamelKConfiguration where
  Enabled : Bool := false
deriving DecidableEq

/-- The custom resource's add-ons block. -/
structure CrAddonsSpec where
  Jaeger : CrJaegerConfiguration := {}
  Ops : CrAddonSpec := {}
  Todo : CrAddonSpec := {}
  Knative : CrAddonSpec := {}
  DV : CrDvConfiguration := {}
  CamelK : CrCamelKConfiguration := {}
deriving DecidableEq

/-- The custom resource's spec block (Go `v1alpha1.SyndesisSpec`). -/
structure CrSyndesisSpec where
  ImageStreamNamespace : String := ""
  Addons : CrAddonsSpec := {}
deriving DecidableEq

/-- The custom resource document (Go `v1alpha1.Syndesis`). -/
structure CrSyndesis where
  Spec : CrSyndesisSpec := {}
deriving DecidableEq

/-- Modelled from the spec: scalar string overlay — a zero-valued (empty)
source field retains the destination, a non-zero source overwrites it. -/
def overlayString (dst src : String) : String :=
  if src = "" then dst else src

/-- Modelled from the spec: boolean overlay for an explicit-absence-tracked
flag — a `false` source is the zero value and retains the destination, a
`true` source overwrites it. -/
def overlayBool (dst src : Bool) : Bool :=
  if src then true else dst

/-- Modelled from the spec: per-add-on overlay of the tracing block. -/
def overlayJaeger (dst : JaegerConfiguration) (src : CrJaegerConfiguration) :
    JaegerConfiguration :=
  { dst with
    Enabled := overlayBool dst.Enabled src.Enabled
    SamplerType := overlayString dst.SamplerType src.SamplerType
    SamplerParam := overlayString dst.SamplerParam src.SamplerParam }

/-- Modelled from the spec: per-add-on overlay of a plain add-on block. -/
def overlayAddon (dst : AddonConfiguration) (src : CrAddonSpec) : AddonConfiguration :=
  { dst with Enabled := overlayBool dst.Enabled src.Enabled }

/-- Modelled from the spec: per-add-on overlay of the data-virtualization
block; the image reference is not expressible in the document and always
retains the destination value. -/
def overlayDv (dst : DvConfiguration) (src : CrDvConfiguration) : DvConfiguration :=
  { dst with
    Enabled := overlayBool dst.Enabled src.Enabled
    Resources := { Memory := overlayString dst.Resources.Memory src.Resources.Memory } }

/-- Modelled from the spec: per-add-on overlay of the camel-K block; image
and runtime versions are not expressible in the document. -/
def overlayCamelK (dst : CamelKConfiguration) (src : CrCamelKConfiguration) :
    CamelKConfiguration :=
  { dst with Enabled := overlayBool dst.Enabled src.Enabled }

/-- Modelled from the spec: overlay of the add-ons block, each add-on
overlaid independently of its siblings. -/
def overlayAddons (dst : AddonsSpec) (src : CrAddonsSpec) : AddonsSpec :=
  { Jaeger := overlayJaeger dst.Jaeger src.Jaeger
    Ops := overlayAddon dst.Ops src.Ops
    Todo := overlayAddon dst.Todo src.Todo
    Knative := overlayAddon dst.Knative src.Knative
    DV := overlayDv dst.DV src.DV
    CamelK := overlayCamelK dst.CamelK src.CamelK }

/-- Modelled from the spec: the Custom-Resource Overlay
(`setSyndesisFromCustomResource` of `configuration.go`, absent from the
analysed sources).  The document is merged field by field onto the
configuration, presence (non-zero value) being the override signal; the
input is already structurally typed here, so the `DecodeError` branch for
structurally invalid input cannot arise. -/
def setSyndesisFromCustomResource (c : Config) (syndesis : CrSyndesis) : Config :=
  { c with
    ImageStreamNamespace :=
      overlayString c.ImageStreamNamespace syndesis.Spec.ImageStreamNamespace
    Syndesis :=
      { c.Syndesis with
        Addons := overlayAddons c.Syndesis.Addons syndesis.Spec.Addons } }

/-! ## The Secret Materializer -/

/-- The alphanumeric charset used for generated secrets. -/
def alphanumerics : List Char :=
  "abcdefghijklmnopqrstuvwxyzABCDEFGHIJKLMNOPQRSTUVWXYZ0123456789".toList

/-- Modelled from the spec: a random alphanumeric string of the given
length, drawn from an injected random source `rnd` (a stream of naturals),
as the spec's design notes prescribe for the random-source interface. -/
def randomAlphanumericString (rnd : Nat → Nat) (len : Nat) : String :=
  String.mk ((List.range len).map fun i =>
    alphanumerics.getD (rnd i % alphanumerics.length) 'a')

/-- Whether every character of the string is drawn from the alphanumeric
charset. -/
def isAlphanumericStr (s : String) : Bool :=
  s.data.all fun ch => decide (ch ∈ alphanumerics)

/-- Modelled from the spec: the Secret Materializer (`generatePasswords` of
`configuration.go`, absent from the analysed sources).  Each of the seven
designated secret fields is filled with a fresh random value of its fixed
length when currently empty and left untouched otherwise; field `k` draws
from its own slice of the injected random source. -/
def generatePasswords (rnd : Nat → Nat) (c : Config) : Config :=
  { c with
    OpenShiftOauthClientSecret :=
      if c.OpenShiftOauthClientSecret = "" then
        randomAlphanumericString (fun i => rnd (7 * i)) 64
      else c.OpenShiftOauthClientSecret
    Syndesis :=
      { c.Syndesis with
        Components :=
          { c.Syndesis.Components with
            Database :=
              { c.Syndesis.Components.Database with
                Password :=
                  if c.Syndesis.Components.Database.Password = "" then
                    randomAlphanumericString (fun i => rnd (7 * i + 1)) 16
                  else c.Syndesis.Components.Database.Password
                SampledbPassword :=
                  if c.Syndesis.Components.Database.SampledbPassword = "" then
                    randomAlphanumericString (fun i => rnd (7 * i + 2)) 16
                  else c.Syndesis.Components.Database.SampledbPassword }
            Oauth :=
              { c.Syndesis.Components.Oauth with
                CookieSecret :=
                  if c.Syndesis.Components.Oauth.CookieSecret = "" then
                    randomAlphanumericString (fun i => rnd (7 * i + 3)) 32
                  else c.Syndesis.Components.Oauth.CookieSecret }
            Server :=
              { c.Syndesis.Components.Server with
                SyndesisEncryptKey :=
                  if c.Syndesis.Components.Server.SyndesisEncryptKey = "" then
                    randomAlphanumericString (fun i => rnd (7 * i + 4)) 64
                  else c.Syndesis.Components.Server.SyndesisEncryptKey
                ClientStateAuthenticationKey :=
                  if c.Syndesis.Components.Server.ClientStateAuthenticationKey = "" then
                    randomAlphanumericString (fun i => rnd (7 * i + 5)) 32
                  else c.Syndesis.Components.Server.ClientStateAuthenticationKey
                ClientStateEncryptionKey :=
                  if c.Syndesis.Components.Server.ClientStateEncryptionKey = "" then
                    randomAlphanumericString (fun i => rnd (7 * i + 6)) 32
                  else c.Syndesis.Components.Server.ClientStateEncryptionKey } } } }

/-! ## The Route Resolver -/

/-- The cluster API client capability, as the spec's design notes
prescribe: resolve the advertised host of the route object for a
namespace and public-facing service name, `none` when no matching route
exists yet. -/
abbrev ClusterClient := String → String → Option String

/-- The Route Resolver's typed failure. -/
inductive RouteError where
  | routeNotFound
deriving DecidableEq

/-- Modelled from the spec: the Route Resolver (`SetRoute` of
`configuration.go`, absent from the analysed sources).  An
environment-supplied `ROUTE_HOSTNAME` takes priority and short-circuits
the cluster lookup entirely; otherwise the cluster is queried for the
route of the installation's public-facing service, failing with
`RouteNotFoundError` when none exists yet.  The client and the custom
resource are optional, mirroring the nil arguments of the test. -/
def SetRoute (env : EnvMap) (client : Option ClusterClient)
    (_syndesis : Option CrSyndesis) (c : Config) : Except RouteError Config :=
  match env "ROUTE_HOSTNAME" with
  | some v => .ok { c with RouteHostname := v }
  | none =>
    match client with
    | none => .error .routeNotFound
    | some cl =>
      match cl c.OpenShiftProject "syndesis" with
      | some host => .ok { c with RouteHostname := host }
      | none => .error .routeNotFound

/-! ## The Template Loader

The base configuration document is modelled post-tokenization as a tree of
named fields over scalar leaves; a file on the installation medium is
either such a tree or unparseable text. -/

/-- A structured document value: a string, boolean or number scalar, or a
mapping from field names to nested values (in document order). -/
inductive DocValue where
  | s (v : String)
  | b (v : Bool)
  | n (v : Nat)
  | m (fields : List (String × DocValue))

/-- A file's content: parseable structured data or malformed text. -/
inductive Document where
  | malformedText
  | value (v : DocValue)

/-- The Template Loader's and Custom-Resource Overlay's typed failure. -/
inductive DecodeError where
  | absent
  | malformed
  | typeMismatch
deriving DecidableEq

/-- Look a field up in a document mapping. -/
def findField : List (String × DocValue) → String → Option DocValue
  | [], _ => none
  | (k, v) :: rest, key => if k = key then some v else findField rest key

/-- Modelled from the spec: decode a string field — missing defaults to the
zero value, a non-string shape is a structural mismatch. -/
def decodeStringField (fields : List (String × DocValue)) (key : String) :
    Except DecodeError String :=
  match findField fields key with
  | none => .ok ""
  | some (.s v) => .ok v
  | some _ => .error .typeMismatch

/-- Modelled from the spec: decode a boolean field. -/
def decodeBoolField (fields : List (String × DocValue)) (key : String) :
    Except DecodeError Bool :=
  match findField fields key with
  | none => .ok false
  | some (.b v) => .ok v
  | some _ => .error .typeMismatch

/-- Modelled from the spec: decode a numeric field. -/
def decodeNatField (fields : List (String × DocValue)) (key : String) :
    Except DecodeError Nat :=
  match findField fields key with
  | none => .ok 0
  | some (.n v) => .ok v
  | some _ => .error .typeMismatch

/-- Modelled from the spec: decode a nested structure field — missing is an
empty mapping (all nested fields defaulted), a scalar shape is a
structural mismatch. -/
def decodeSubFields (fields : List (String × DocValue)) (key : String) :
    Except DecodeError (List (String × DocValue)) :=
  match findField fields key with
  | none => .ok []
  | some (.m fs) => .ok fs
  | some _ => .error .typeMismatch

/-- Modelled from the spec: decode a string-to-string mapping's entries. -/
def decodeStringMapEntries : List (String × DocValue) →
    Except DecodeError (List (String × String))
  | [] => .ok []
  | (k, .s v) :: rest => do
    let r ← decodeStringMapEntries rest
    .ok ((k, v) :: r)
  | _ :: _ => .error .typeMismatch

/-- Modelled from the spec: decode a map-valued field such as the
repository-mirror list. -/
def decodeStringMapField (fields : List (String × DocValue)) (key : String) :
    Except DecodeError (List (String × String)) :=
  match findField fields key with
  | none => .ok []
  | some (.m fs) => decodeStringMapEntries fs
  | some _ => .error .typeMismatch

/-- Modelled from the spec: decode a memory-only resources block. -/
def decodeResources (fields : List (String × DocValue)) : Except DecodeError Resources := do
  let mem ← decodeStringField fields "memory"
  .ok { Memory := mem }

/-- Modelled from the spec: decode a memory-and-volume resources block. -/
def decodeResourcesWithVolume (fields : List (String × DocValue)) :
    Except DecodeError ResourcesWithVolume := do
  let mem ← decodeStringField fields "memory"
  let vol ← decodeStringField fields "volumeCapacity"
  .ok { Memory := mem, VolumeCapacity := vol }

/-- Modelled from the spec: decode a volume-only resources block. -/
def decodeVolumeOnlyResources (fields : List (String × DocValue)) :
    Except DecodeError VolumeOnlyResources := do
  let vol ← decodeStringField fields "volumeCapacity"
  .ok { VolumeCapacity := vol }

/-- Modelled from the spec: decode the add-ons block. -/
def decodeAddons (fields : List (String × DocValue)) : Except DecodeError AddonsSpec := do
  let jaegerFs ← decodeSubFields fields "jaeger"
  let jaegerEnabled ← decodeBoolField jaegerFs "enabled"
  let samplerType ← decodeStringField jaegerFs "samplerType"
  let samplerParam ← decodeStringField jaegerFs "samplerParam"
  let opsFs ← decodeSubFields fields "ops"
  let opsEnabled ← decodeBoolField opsFs "enabled"
  let todoFs ← decodeSubFields fields "todo"
  let todoEnabled ← decodeBoolField todoFs "enabled"
  let knativeFs ← decodeSubFields fields "knative"
  let knativeEnabled ← decodeBoolField knativeFs "enabled"
  let dvFs ← decodeSubFields fields "dv"
  let dvEnabled ← decodeBoolField dvFs "enabled"
  let dvImage ← decodeStringField dvFs "image"
  let dvResFs ← decodeSubFields dvFs "resources"
  let dvRes ← decodeResources dvResFs
  let camelKFs ← decodeSubFields fields "camelk"
  let camelKEnabled ← decodeBoolField camelKFs "enabled"
  let camelVersion ← decodeStringField camelKFs "camelVersion"
  let camelKRuntime ← decodeStringField camelKFs "camelkRuntime"
  let camelKImage ← decodeStringField camelKFs "image"
  .ok
    { Jaeger :=
        { Enabled := jaegerEnabled
          SamplerType := samplerType
          SamplerParam := samplerParam }
      Ops := { Enabled := opsEnabled }
      Todo := { Enabled := todoEnabled }
      Knative := { Enabled := knativeEnabled }
      DV := { Enabled := dvEnabled, Image := dvImage, Resources := dvRes }
      CamelK :=
        { Enabled := camelKEnabled
          CamelVersion := camelVersion
          CamelKRuntime := camelKRuntime
          Image := camelKImage } }

/-- Modelled from the spec: decode the backend server's features block. -/
def decodeServerFeatures (fields : List (String × DocValue)) :
    Except DecodeError ServerFeatures := do
  let limit ← decodeNatField fields "integrationLimit"
  let interval ← decodeNatField fields "integrationStateCheckInterval"
  let demoData ← decodeBoolField fields "demoData"
  let deploy ← decodeBoolField fields "deployIntegrations"
  let testSupport ← decodeBoolField fields "testSupport"
  let master ← decodeStringField fields "openShiftMaster"
  let mavenRepositories ← decodeStringMapField fields "mavenRepositories"
  .ok
    { IntegrationLimit := limit
      IntegrationStateCheckInterval := interval
      DemoData := demoData
      DeployIntegrations := deploy
      TestSupport := testSupport
      OpenShiftMaster := master
      MavenRepositories := mavenRepositories }

/-- Modelled from the spec: decode the components block. -/
def decodeComponents (fields : List (String × DocValue)) :
    Except DecodeError ComponentsSpec := do
  let oauthFs ← decodeSubFields fields "oauth"
  let oauthImage ← decodeStringField oauthFs "image"
  let oauthCookieSecret ← decodeStringField oauthFs "cookieSecret"
  let uiFs ← decodeSubFields fields "ui"
  let uiImage ← decodeStringField uiFs "image"
  let s2iFs ← decodeSubFields fields "s2i"
  let s2iImage ← decodeStringField s2iFs "image"
  let serverFs ← decodeSubFields fields "server"
  let serverImage ← decodeStringField serverFs "image"
  let controllersIntegration ← decodeBoolField serverFs "controllersIntegrationEnabled"
  let syndesisEncryptKey ← decodeStringField serverFs "syndesisEncryptKey"
  let clientStateAuthKey ← decodeStringField serverFs "clientStateAuthenticationKey"
  let clientStateEncKey ← decodeStringField serverFs "clientStateEncryptionKey"
  let serverResFs ← decodeSubFields serverFs "resources"
  let serverRes ← decodeResources serverResFs
  let featuresFs ← decodeSubFields serverFs "features"
  let features ← decodeServerFeatures featuresFs
  let metaFs ← decodeSubFields fields "meta"
  let metaImage ← decodeStringField metaFs "image"
  let metaResFs ← decodeSubFields metaFs "resources"
  let metaRes ← decodeResourcesWithVolume metaResFs
  let databaseFs ← decodeSubFields fields "database"
  let dbNamespace ← decodeStringField databaseFs "imageStreamNamespace"
  let dbImage ← decodeStringField databaseFs "image"
  let dbUser ← decodeStringField databaseFs "user"
  let dbName ← decodeStringField databaseFs "name"
  let dbUrl ← decodeStringField databaseFs "url"
  let dbPassword ← decodeStringField databaseFs "password"
  let dbSampledbPassword ← decodeStringField databaseFs "sampledbPassword"
  let exporterFs ← decodeSubFields databaseFs "exporter"
  let exporterImage ← decodeStringField exporterFs "image"
  let dbResFs ← decodeSubFields databaseFs "resources"
  let dbRes ← decodeResourcesWithVolume dbResFs
  let prometheusFs ← decodeSubFields fields "prometheus"
  let prometheusImage ← decodeStringField prometheusFs "image"
  let prometheusResFs ← decodeSubFields prometheusFs "resources"
  let prometheusRes ← decodeResourcesWithVolume prometheusResFs
  let upgradeFs ← decodeSubFields fields "upgrade"
  let upgradeImage ← decodeStringField upgradeFs "image"
  let upgradeResFs ← decodeSubFields upgradeFs "resources"
  let upgradeRes ← decodeVolumeOnlyResources upgradeResFs
  .ok
    { Oauth := { Image := oauthImage, CookieSecret := oauthCookieSecret }
      UI := { Image := uiImage }
      S2I := { Image := s2iImage }
      Server :=
        { Image := serverImage
          ControllersIntegrationEnabled := controllersIntegration
          SyndesisEncryptKey := syndesisEncryptKey
          ClientStateAuthenticationKey := clientStateAuthKey
          ClientStateEncryptionKey := clientStateEncKey
          Resources := serverRes
          Features := features }
      Meta := { Image := metaImage, Resources := metaRes }
      Database :=
        { ImageStreamNamespace := dbNamespace
          Image := dbImage
          User := dbUser
          Name := dbName
          URL := dbUrl
          Password := dbPassword
          SampledbPassword := dbSampledbPassword
          Exporter := { Image := exporterImage }
          Resources := dbRes }
      Prometheus := { Image := prometheusImage, Resources := prometheusRes }
      Upgrade := { Image := upgradeImage, Resources := upgradeRes } }

/-- Modelled from the spec: decode the whole base configuration document
into a `Config`, failing with a structural mismatch when the root or any
field has the wrong shape. -/
def decodeConfig (v : DocValue) : Except DecodeError Config :=
  match v with
  | .m fields => do
    let productName ← decodeStringField fields "productName"
    let allowLocalHost ← decodeBoolField fields "allowLocalHost"
    let productized ← decodeBoolField fields "productized"
    let devSupport ← decodeBoolField fields "devSupport"
    let scheduled ← decodeBoolField fields "scheduled"
    let imageStreamNamespace ← decodeStringField fields "imageStreamNamespace"
    let prometheusRules ← decodeStringField fields "prometheusRules"
    let openShiftProject ← decodeStringField fields "openShiftProject"
    let oauthClientSecret ← decodeStringField fields "openShiftOauthClientSecret"
    let routeHostname ← decodeStringField fields "routeHostname"
    let consoleUrl ← decodeStringField fields "openShiftConsoleUrl"
    let syndesisFs ← decodeSubFields fields "syndesis"
    let addonsFs ← decodeSubFields syndesisFs "addons"
    let addons ← decodeAddons addonsFs
    let componentsFs ← decodeSubFields syndesisFs "components"
    let components ← decodeComponents componentsFs
    .ok
      { ProductName := productName
        AllowLocalHost := allowLocalHost
        Productized := productized
        DevSupport := devSupport
        Scheduled := scheduled
        ImageStreamNamespace := imageStreamNamespace
        PrometheusRules := prometheusRules
        OpenShiftProject := openShiftProject
        OpenShiftOauthClientSecret := oauthClientSecret
        RouteHostname := routeHostname
        OpenShiftConsoleUrl := consoleUrl
        Syndesis := { Addons := addons, Components := components } }
  | _ => .error .typeMismatch

/-- Modelled from the spec: the Template Loader (`loadFromFile` of
`configuration.go`, absent from the analysed sources) over an injected
file store.  An absent document, unparseable text and a structurally
mis-shaped tree each fail with the corresponding `DecodeError`. -/
def loadFromFile (files : String → Option Document) (path : String) :
    Except DecodeError Config :=
  match files path with
  | none => .error .absent
  | some .malformedText => .error .malformed
  | some (.value v) => decodeConfig v

/-- The base configuration document shipped with the installation
(`build/conf/config-test.yaml`), as the document tree whose decoding is the
canonical default configuration; fields at their zero value are defaulted
by the decoder. -/
def configTestDoc : DocValue :=
  .m
    [("productName", .s "syndesis"),
     ("scheduled", .b true),
     ("syndesis",
      .m
        [("addons",
          .m
            [("jaeger",
              .m [("samplerType", .s "const"), ("samplerParam", .s "0")]),
             ("dv",
              .m
                [("image", .s "docker.io/teiid/syndesis-dv:latest"),
                 ("resources", .m [("memory", .s "1024Mi")])]),
             ("camelk",
              .m
                [("camelVersion", .s "2.21.0.fuse-760011"),
                 ("camelkRuntime", .s "0.3.4.fuse-740008"),
                 ("image", .s "fabric8/s2i-java:3.0-java8")])]),
         ("components",
          .m
            [("oauth", .m [("image", .s "quay.io/openshift/origin-oauth-proxy:v4.0.0")]),
             ("ui", .m [("image", .s "docker.io/syndesis/syndesis-ui:latest")]),
             ("s2i", .m [("image", .s "docker.io/syndesis/syndesis-s2i:latest")]),
             ("server",
              .m
                [("image", .s "docker.io/syndesis/syndesis-server:latest"),
                 ("controllersIntegrationEnabled", .b true),
                 ("resources", .m [("memory", .s "800Mi")]),
                 ("features",
                  .m
                    [("integrationStateCheckInterval", .n 60),
                     ("deployIntegrations", .b true),
                     ("openShiftMaster", .s "https://localhost:8443"),
                     ("mavenRepositories",
                      .m
                        [("central", .s "https://repo.maven.apache.org/maven2/"),
                         ("repo-02-redhat-ga", .s "https://maven.repository.redhat.com/ga/"),
                         ("repo-03-jboss-ea",
                          .s "https://repository.jboss.org/nexus/content/groups/ea/")])])]),
             ("meta",
              .m
                [("image", .s "docker.io/syndesis/syndesis-meta:latest"),
                 ("resources",
                  .m [("memory", .s "512Mi"), ("volumeCapacity", .s "1Gi")])]),
             ("database",
              .m
                [("imageStreamNamespace", .s "openshift"),
                 ("image", .s "postgresql:9.6"),
                 ("user", .s "syndesis"),
                 ("name", .s "syndesis"),
                 ("url", .s "postgresql://syndesis-db:5432/syndesis?sslmode=disable"),
                 ("exporter",
                  .m [("image", .s "docker.io/wrouesnel/postgres_exporter:v0.4.7")]),
                 ("resources",
                  .m [("memory", .s "255Mi"), ("volumeCapacity", .s "1Gi")])]),
             ("prometheus",
              .m
                [("image", .s "docker.io/prom/prometheus:v2.1.0"),
                 ("resources",
                  .m [("memory", .s "512Mi"), ("volumeCapacity", .s "1Gi")])]),
             ("upgrade",
              .m
                [("image", .s "docker.io/syndesis/syndesis-upgrade:latest"),
                 ("resources", .m [("volumeCapacity", .s "1Gi")])])])])]

/-- The path of the base configuration document used by the tests. -/
def configTestPath : String := "../../../build/conf/config-test.yaml"

/-- An installation medium holding exactly the valid base configuration
document at its test path. -/
def configTestFiles : String → Option Document := fun p =>
  if p = configTestPath then some (.value configTestDoc) else none

/-- Whether every image-reference field of the configuration is non-empty. -/
def allImagesNonEmpty (c : Config) : Bool :=
  !(c.Syndesis.Addons.DV.Image = "") &&
  !(c.Syndesis.Addons.CamelK.Image = "") &&
  !(c.Syndesis.Components.Oauth.Image = "") &&
  !(c.Syndesis.Components.UI.Image = "") &&
  !(c.Syndesis.Components.S2I.Image = "") &&
  !(c.Syndesis.Components.Server.Image = "") &&
  !(c.Syndesis.Components.Meta.Image = "") &&
  !(c.Syndesis.Components.Database.Image = "") &&
  !(c.Syndesis.Components.Database.Exporter.Image = "") &&
  !(c.Syndesis.Components.Prometheus.Image = "") &&
  !(c.Syndesis.Components.Upgrade.Image = "")

/-! ## The virtualization action container

Transcribed from `VirtualizationActionContainer` (the `getActions`
function and the default action constants).  The `canDelete`/`canExport`/
`canPublish`/`canRevert`/`canStart`/`canStop` predicates are imported by
that component from `VirtualizationUtils` and only their boolean outcome
on the given virtualization and revision matters to `getActions`, so they
enter the embedding as the flags of `CanFlags`.  The `onClick` callbacks
are side-effecting and outside the embedded state. -/

/-- The action identifiers (`VirtualizationActionId`). -/
inductive VirtualizationActionId where
  | delete
  | export
  | publish
  | revert
  | start
  | stop
deriving DecidableEq

/-- An action as rendered by the container (`IVirtualizationAction`
without its `onClick` callback).  `asStyle` models the TS `as` property,
absent on actions that do not set it. -/
structure IVirtualizationAction where
  asStyle : Option String := none
  disabled : Bool := false
  i18nLabel : String := ""
  id : VirtualizationActionId
deriving DecidableEq

/-- A custom-properties object passed to a `create*Action` helper: each
present key overrides the corresponding default property (the TS object
spread `\x7b ...defaultAction, ...customProps \x7d`). -/
structure ActionCustomProps where
  asC : Option String := none
  disabledC : Option Bool := none
  i18nLabelC : Option String := none
  idC : Option VirtualizationActionId := none
deriving DecidableEq

/-- The TS object spread of `customProps` over a default action: every key
present in `customProps` wins. -/
def applyCustomProps (a : IVirtualizationAction) (p : ActionCustomProps) :
    IVirtualizationAction :=
  { asStyle := match p.asC with | some v => some v | none => a.asStyle
    disabled := match p.disabledC with | some v => v | none => a.disabled
    i18nLabel := match p.i18nLabelC with | some v => v | none => a.i18nLabel
    id := match p.idC with | some v => v | none => a.id }

/-- The default delete action (i18n labels stand for their keys). -/
def deleteAction : IVirtualizationAction :=
  { disabled := false
    i18nLabel := "shared:Delete"
    id := .delete }

/-- The default export action. -/
def exportAction : IVirtualizationAction :=
  { asStyle := some "default"
    disabled := false
    i18nLabel := "shared:Export"
    id := .export }

/-- The default publish action. -/
def publishAction : IVirtualizationAction :=
  { asStyle := some "primary"
    disabled := false
    i18nLabel := "shared:Publish"
    id := .publish }

/-- The default revert action. -/
def revertAction : IVirtualizationAction :=
  { asStyle := some "primary"
    disabled := false
    i18nLabel := "shared:Revert"
    id := .revert }

/-- The default start action. -/
def startAction : IVirtualizationAction :=
  { disabled := false
    i18nLabel := "shared:Start"
    id := .start }

/-- The default stop/unpublish action. -/
def stopAction : IVirtualizationAction :=
  { disabled := false
    i18nLabel := "shared:Stop"
    id := .stop }

/-- Transcription of `createDeleteAction`: without custom properties the
default action, otherwise the default overridden by them. -/
def createDeleteAction : Option ActionCustomProps → IVirtualizationAction
  | none => deleteAction
  | some p => applyCustomProps deleteAction p

/-- Transcription of `createExportAction`. -/
def createExportAction : Option ActionCustomProps → IVirtualizationAction
  | none => exportAction
  | some p => applyCustomProps exportAction p

/-- Transcription of `createPublishAction`. -/
def createPublishAction : Option ActionCustomProps → IVirtualizationAction
  | none => publishAction
  | some p => applyCustomProps publishAction p

/-- Transcription of `createRevertAction`. -/
def createRevertAction : Option ActionCustomProps → IVirtualizationAction
  | none => revertAction
  | some p => applyCustomProps revertAction p

/-- Transcription of `createStartAction`. -/
def createStartAction : Option ActionCustomProps → IVirtualizationAction
  | none => startAction
  | some p => applyCustomProps startAction p

/-- Transcription of `createStopAction`. -/
def createStopAction : Option ActionCustomProps → IVirtualizationAction
  | none => stopAction
  | some p => applyCustomProps stopAction p

/-- The outcomes of the `VirtualizationUtils` predicates on the
virtualization (and revision) whose actions are requested. -/
structure CanFlags where
  canDeleteV : Bool := false
  canExportV : Bool := false
  canPublishV : Bool := false
  canRevertV : Bool := false
  canStartV : Bool := false
  canStopV : Bool := false
deriving DecidableEq

/-- The container props that `getActions` consults. -/
structure ActionContainerProps where
  includeActions : Option (List VirtualizationActionId) := none
  deleteActionProps : Option ActionCustomProps := none
  exportActionProps : Option ActionCustomProps := none
  publishActionProps : Option ActionCustomProps := none
  revertActionProps : Option ActionCustomProps := none
  startActionProps : Option ActionCustomProps := none
  stopActionProps : Option ActionCustomProps := none

/-- One step of the custom-actions `forEach` switch: the action appended
for an identifier, when its predicate allows it. -/
def actionFor (cs : CanFlags) (props : ActionContainerProps) :
    VirtualizationActionId → List IVirtualizationAction
  | .delete =>
    if cs.canDeleteV then
      [match props.deleteActionProps with
       | some p => createDeleteAction (some p)
       | none => deleteAction]
    else []
  | .export =>
    if cs.canExportV then
      [match props.exportActionProps with
       | some p => createExportAction (some p)
       | none => exportAction]
    else []
  | .publish =>
    if cs.canPublishV then
      [match props.publishActionProps with
       | some p => createPublishAction (some p)
       | none => publishAction]
    else []
  | .revert =>
    if cs.canRevertV then
      [match props.revertActionProps with
       | some p => createRevertAction (some p)
       | none => revertAction]
    else []
  | .start =>
    if cs.canStartV then
      [match props.startActionProps with
       | some p => createStartAction (some p)
       | none => startAction]
    else []
  | .stop =>
    if cs.canStopV then
      [match props.stopActionProps with
       | some p => createStopAction (some p)
       | none => stopAction]
    else []

/-- Transcription of `getActions` from the component: with `includeActions`
undefined it builds the default button row — revert and export when their
predicates allow, then always the publish action, force-disabled when
`canPublish` is false; with `includeActions` given it walks the requested
identifiers instead. -/
def getActions (cs : CanFlags) (props : ActionContainerProps) :
    List IVirtualizationAction :=
  match props.includeActions with
  | none =>
    let actions : List IVirtualizationAction := []
    let actions :=
      if cs.canRevertV then
        actions ++
          [match props.revertActionProps with
           | some p => createRevertAction (some p)
           | none => revertAction]
      else actions
    let actions :=
      if cs.canExportV then
        actions ++
          [match props.exportActionProps with
           | some p => createExportAction (some p)
           | none => exportAction]
      else actions
    if !cs.canPublishV then
      actions ++ [createPublishAction (some { disabledC := some true })]
    else
      actions ++
        [match props.publishActionProps with
         | some p => createPublishAction (some p)
         | none => publishAction]
  | some ids =>
    if ids.length = 0 then []
    else ids.foldl (fun acc actionId => acc ++ actionFor cs props actionId) []

/-! ## Concrete instances used for evaluation -/

/-- An environment holding only `EXISTING_ENV=false`. -/
def envExistingFalse : EnvMap := fun n =>
  if n = "EXISTING_ENV" then some "false" else none

/-- An environment holding only `ROUTE_HOSTNAME=foo.example.com`. -/
def envRouteFoo : EnvMap := fun n =>
  if n = "ROUTE_HOSTNAME" then some "foo.example.com" else none

/-- The environment of `Test_setConfigFromEnv`'s first case: every
recognized variable set, each to its own name. -/
def envAllSet : EnvMap := fun n =>
  List.lookup n
    [("DEV_SUPPORT", "DEV_SUPPORT"), ("TEST_SUPPORT", "TEST_SUPPORT"),
     ("ROUTE_HOSTNAME", "ROUTE_HOSTNAME"), ("DV_IMAGE", "DV_IMAGE"),
     ("OAUTH_IMAGE", "OAUTH_IMAGE"), ("UI_IMAGE", "UI_IMAGE"),
     ("S2I_IMAGE", "S2I_IMAGE"), ("PROMETHEUS_IMAGE", "PROMETHEUS_IMAGE"),
     ("UPGRADE_IMAGE", "UPGRADE_IMAGE"), ("META_IMAGE", "META_IMAGE"),
     ("DATABASE_IMAGE", "DATABASE_IMAGE"), ("DATABASE_NAMESPACE", "DATABASE_NAMESPACE"),
     ("PSQL_EXPORTER_IMAGE", "PSQL_EXPORTER_IMAGE"), ("SERVER_IMAGE", "SERVER_IMAGE")]

/-- The custom resource of the test that enables only the
data-virtualization add-on. -/
def dvOnlyCr : CrSyndesis :=
  { Spec := { Addons := { DV := { Enabled := true } } } }

/-- A custom resource with every user-expressible field non-zero. -/
def crAllSet : CrSyndesis :=
  { Spec :=
      { ImageStreamNamespace := "ns-override"
        Addons :=
          { Jaeger :=
              { Enabled := true
                SamplerType := "probabilistic"
                SamplerParam := "0.5" }
            Ops := { Enabled := true }
            Todo := { Enabled := true }
            Knative := { Enabled := true }
            DV := { Enabled := true, Resources := { Memory := "2048Mi" } }
            CamelK := { Enabled := true } } } }

/-- The configuration of `Test_generatePasswords`' second case: every
designated secret field already populated. -/
def prefilledConfig : Config :=
  { OpenShiftOauthClientSecret := "swer"
    Syndesis :=
      { Components :=
          { Oauth := { CookieSecret := "qwerqwer" }
            Database :=
              { Password := "1234qwer"
                SampledbPassword := "12ed" }
            Server :=
              { SyndesisEncryptKey := "poyotu"
                ClientStateAuthenticationKey := "pogkth"
                ClientStateEncryptionKey := "12" } } } }

/-- Outcome flags with only `canPublish` true. -/
def csPublishOnly : CanFlags := { canPublishV := true }

/-- Container props customizing the publish action to be disabled. -/
def propsPublishDisabled : ActionContainerProps :=
  { publishActionProps := some { disabledC := some true } }

/-- Outcome flags with `canPublish` false and the others true. -/
def csNoPublish : CanFlags :=
  { canDeleteV := true, canExportV := true, canPublishV := false
    canRevertV := true, canStartV := true, canStopV := true }

/-! ## Helper lemmas -/

theorem randomAlphanumericString_length (rnd : Nat → Nat) (len : Nat) :
    (randomAlphanumericString rnd len).length = len := by
  simp [randomAlphanumericString, String.length]

theorem randomAlphanumericString_ne_empty (rnd : Nat → Nat) {len : Nat}
    (h : len ≠ 0) : randomAlphanumericString rnd len ≠ "" := by
  intro he
  have hl := randomAlphanumericString_length rnd len
  rw [he] at hl
  simp [String.length] at hl
  exact h hl.symm

theorem isAlphanumericStr_randomAlphanumericString (rnd : Nat → Nat) (len : Nat) :
    isAlphanumericStr (randomAlphanumericString rnd len) = true := by
  simp only [isAlphanumericStr, randomAlphanumericString, List.all_eq_true]
  intro x hx
  obtain ⟨i, -, rfl⟩ := List.mem_map.mp hx
  have hlt : rnd i % alphanumerics.length < alphanumerics.length :=
    Nat.mod_lt _ (by simp [alphanumerics])
  rw [List.getD_eq_getElem alphanumerics 'a' hlt]
  simp [List.getElem_mem hlt]

theorem generatePasswords_secret_fields (rnd : Nat → Nat) (c : Config) :
    (generatePasswords rnd c).OpenShiftOauthClientSecret ≠ "" ∧
    (generatePasswords rnd c).Syndesis.Components.Database.Password ≠ "" ∧
    (generatePasswords rnd c).Syndesis.Components.Database.SampledbPassword ≠ "" ∧
    (generatePasswords rnd c).Syndesis.Components.Oauth.CookieSecret ≠ "" ∧
    (generatePasswords rnd c).Syndesis.Components.Server.SyndesisEncryptKey ≠ "" ∧
    (generatePasswords rnd c).Syndesis.Components.Server.ClientStateAuthenticationKey ≠ "" ∧
    (generatePasswords rnd c).Syndesis.Components.Server.ClientStateEncryptionKey ≠ "" := by
  refine ⟨?_, ?_, ?_, ?_, ?_, ?_, ?_⟩ <;>
    · simp only [generatePasswords]
      split <;>
        first
          | exact randomAlphanumericString_ne_empty _ (by decide)
          | (intro hc; simp_all)

theorem generatePasswords_of_filled (rnd : Nat → Nat) (c : Config)
    (h1 : c.OpenShiftOauthClientSecret ≠ "")
    (h2 : c.Syndesis.Components.Database.Password ≠ "")
    (h3 : c.Syndesis.Components.Database.SampledbPassword ≠ "")
    (h4 : c.Syndesis.Components.Oauth.CookieSecret ≠ "")
    (h5 : c.Syndesis.Components.Server.SyndesisEncryptKey ≠ "")
    (h6 : c.Syndesis.Components.Server.ClientStateAuthenticationKey ≠ "")
    (h7 : c.Syndesis.Components.Server.ClientStateEncryptionKey ≠ "") :
    generatePasswords rnd c = c := by
  simp only [generatePasswords, if_neg h1, if_neg h2, if_neg h3, if_neg h4,
    if_neg h5, if_neg h6, if_neg h7]

/-! ## The claims -/

/-- C3: the boolean environment read is tri-state — an absent variable
leaves the current value unchanged, a variable set to the literal `"true"`
yields `true`, and any other present value yields `false`. -/
theorem setBoolFromEnv_tristate (env : EnvMap) (name : String) (current : Bool) :
    (env name = none → setBoolFromEnv env name current = current) ∧
    (env name = some "true" → setBoolFromEnv env name current = true) ∧
    (∀ v, env name = some v → v ≠ "true" →
      setBoolFromEnv env name current = false) := by
  refine ⟨fun h => ?_, fun h => ?_, fun v h hv => ?_⟩
  · simp [setBoolFromEnv, h]
  · simp [setBoolFromEnv, h]
  · simp [setBoolFromEnv, h, hv]

/-- Witness for C3, on the environments of `Test_setBoolFromEnv`. -/
theorem setBoolFromEnv_tristate_witness :
    setBoolFromEnv envExistingFalse "NOT_EXISTING_ENV" true = true ∧
    setBoolFromEnv envExistingFalse "EXISTING_ENV" true = false :=
  ⟨(setBoolFromEnv_tristate envExistingFalse "NOT_EXISTING_ENV" true).1 (by decide),
   (setBoolFromEnv_tristate envExistingFalse "EXISTING_ENV" true).2.2 "false"
     (by decide) (by decide)⟩

/-- C5: overlaying an entirely empty custom-resource document onto any
configuration is the identity — every field of the document is its type's
zero value, so every destination field is retained. -/
theorem setSyndesisFromCustomResource_empty_id (c : Config) :
    setSyndesisFromCustomResource c {} = c := rfl

/-- C6: a custom-resource document that enables only the
data-virtualization add-on sets that add-on's enabled flag, retains the
add-on's fields the document cannot express (image, resource memory), and
leaves every other add-on and every component untouched. -/
theorem setSyndesisFromCustomResource_dv_only (c : Config) :
    (setSyndesisFromCustomResource c dvOnlyCr).Syndesis.Addons.DV.Enabled = true ∧
    (setSyndesisFromCustomResource c dvOnlyCr).Syndesis.Addons.DV.Image =
      c.Syndesis.Addons.DV.Image ∧
    (setSyndesisFromCustomResource c dvOnlyCr).Syndesis.Addons.DV.Resources =
      c.Syndesis.Addons.DV.Resources ∧
    (setSyndesisFromCustomResource c dvOnlyCr).Syndesis.Addons.Jaeger =
      c.Syndesis.Addons.Jaeger ∧
    (setSyndesisFromCustomResource c dvOnlyCr).Syndesis.Addons.Ops =
      c.Syndesis.Addons.Ops ∧
    (setSyndesisFromCustomResource c dvOnlyCr).Syndesis.Addons.Todo =
      c.Syndesis.Addons.Todo ∧
    (setSyndesisFromCustomResource c dvOnlyCr).Syndesis.Addons.Knative =
      c.Syndesis.Addons.Knative ∧
    (setSyndesisFromCustomResource c dvOnlyCr).Syndesis.Addons.CamelK =
      c.Syndesis.Addons.CamelK ∧
    (setSyndesisFromCustomResource c dvOnlyCr).Syndesis.Components =
      c.Syndesis.Components :=
  ⟨rfl, rfl, rfl, rfl, rfl, rfl, rfl, rfl, rfl⟩

/-- C7: with the `ROUTE_HOSTNAME` variable present, the Route Resolver
succeeds, sets the route hostname to exactly the variable's value, and its
result does not depend on the cluster client or the custom resource — in
particular it succeeds with both absent. -/
theorem SetRoute_env_short_circuit (env : EnvMap) (c : Config) (v : String)
    (h : env "ROUTE_HOSTNAME" = some v) (client : Option ClusterClient)
    (syndesis : Option CrSyndesis) :
    SetRoute env client syndesis c = .ok { c with RouteHostname := v } := by
  simp [SetRoute, h]

/-- Witness for C7: `ROUTE_HOSTNAME=foo.example.com` with a nil client and
nil custom resource. -/
theorem SetRoute_env_short_circuit_witness :
    SetRoute envRouteFoo none none getConfigLiteral =
      .ok { getConfigLiteral with RouteHostname := "foo.example.com" } :=
  SetRoute_env_short_circuit envRouteFoo getConfigLiteral "foo.example.com"
    (by decide) none none

/-- C1: the Secret Materializer is idempotent with respect to secrets —
each designated secret field that is already non-empty is left
byte-identical, whatever the random source yields, and a second run on the
output of a first run (whose secret fields are all populated) changes
nothing at all. -/
theorem generatePasswords_idempotent (rnd rnd2 : Nat → Nat) (c : Config) :
    (c.OpenShiftOauthClientSecret ≠ "" →
      (generatePasswords rnd c).OpenShiftOauthClientSecret =
        c.OpenShiftOauthClientSecret) ∧
    (c.Syndesis.Components.Database.Password ≠ "" →
      (generatePasswords rnd c).Syndesis.Components.Database.Password =
        c.Syndesis.Components.Database.Password) ∧
    (c.Syndesis.Components.Database.SampledbPassword ≠ "" →
      (generatePasswords rnd c).Syndesis.Components.Database.SampledbPassword =
        c.Syndesis.Components.Database.SampledbPassword) ∧
    (c.Syndesis.Components.Oauth.CookieSecret ≠ "" →
      (generatePasswords rnd c).Syndesis.Components.Oauth.CookieSecret =
        c.Syndesis.Components.Oauth.CookieSecret) ∧
    (c.Syndesis.Components.Server.SyndesisEncryptKey ≠ "" →
      (generatePasswords rnd c).Syndesis.Components.Server.SyndesisEncryptKey =
        c.Syndesis.Components.Server.SyndesisEncryptKey) ∧
    (c.Syndesis.Components.Server.ClientStateAuthenticationKey ≠ "" →
      (generatePasswords rnd c).Syndesis.Components.Server.ClientStateAuthenticationKey =
        c.Syndesis.Components.Server.ClientStateAuthenticationKey) ∧
    (c.Syndesis.Components.Server.ClientStateEncryptionKey ≠ "" →
      (generatePasswords rnd c).Syndesis.Components.Server.ClientStateEncryptionKey =
        c.Syndesis.Components.Server.ClientStateEncryptionKey) ∧
    generatePasswords rnd2 (generatePasswords rnd c) = generatePasswords rnd c := by
  refine ⟨fun h => ?_, fun h => ?_, fun h => ?_, fun h => ?_, fun h => ?_,
    fun h => ?_, fun h => ?_, ?_⟩
  · simp [generatePasswords, h]
  · simp [generatePasswords, h]
  · simp [generatePasswords, h]
  · simp [generatePasswords, h]
  · simp [generatePasswords, h]
  · simp [generatePasswords, h]
  · simp [generatePasswords, h]
  · obtain ⟨g1, g2, g3, g4, g5, g6, g7⟩ := generatePasswords_secret_fields rnd c
    exact generatePasswords_of_filled rnd2 _ g1 g2 g3 g4 g5 g6 g7

/-- Witness for C1, on the already-populated configuration of
`Test_generatePasswords`' second case. -/
theorem generatePasswords_idempotent_witness :
    (generatePasswords (fun _ => 0) prefilledConfig).OpenShiftOauthClientSecret =
      prefilledConfig.OpenShiftOauthClientSecret ∧
    (generatePasswords (fun _ => 0) prefilledConfig).Syndesis.Components.Database.Password =
      prefilledConfig.Syndesis.Components.Database.Password ∧
    (generatePasswords (fun _ => 0)
        prefilledConfig).Syndesis.Components.Database.SampledbPassword =
      prefilledConfig.Syndesis.Components.Database.SampledbPassword ∧
    (generatePasswords (fun _ => 0)
        prefilledConfig).Syndesis.Components.Oauth.CookieSecret =
      prefilledConfig.Syndesis.Components.Oauth.CookieSecret ∧
    (generatePasswords (fun _ => 0)
        prefilledConfig).Syndesis.Components.Server.SyndesisEncryptKey =
      prefilledConfig.Syndesis.Components.Server.SyndesisEncryptKey ∧
    (generatePasswords (fun _ => 0)
        prefilledConfig).Syndesis.Components.Server.ClientStateAuthenticationKey =
      prefilledConfig.Syndesis.Components.Server.ClientStateAuthenticationKey ∧
    (generatePasswords (fun _ => 0)
        prefilledConfig).Syndesis.Components.Server.ClientStateEncryptionKey =
      prefilledConfig.Syndesis.Components.Server.ClientStateEncryptionKey ∧
    generatePasswords (fun _ => 1) (generatePasswords (fun _ => 0) prefilledConfig) =
      generatePasswords (fun _ => 0) prefilledConfig := by
  obtain ⟨p1, p2, p3, p4, p5, p6, p7, p8⟩ :=
    generatePasswords_idempotent (fun _ => 0) (fun _ => 1) prefilledConfig
  exact ⟨p1 (by decide), p2 (by decide), p3 (by decide), p4 (by decide),
    p5 (by decide), p6 (by decide), p7 (by decide), p8⟩

/-- C2: on a configuration whose seven designated secret fields are all
empty, the Secret Materializer fills each with an alphanumeric value of
its exact fixed length — 64, 16, 16, 32, 64, 32, 32 characters
respectively (non-empty in particular). -/
theorem generatePasswords_lengths (rnd : Nat → Nat) (c : Config)
    (h1 : c.OpenShiftOauthClientSecret = "")
    (h2 : c.Syndesis.Components.Database.Password = "")
    (h3 : c.Syndesis.Components.Database.SampledbPassword = "")
    (h4 : c.Syndesis.Components.Oauth.CookieSecret = "")
    (h5 : c.Syndesis.Components.Server.SyndesisEncryptKey = "")
    (h6 : c.Syndesis.Components.Server.ClientStateAuthenticationKey = "")
    (h7 : c.Syndesis.Components.Server.ClientStateEncryptionKey = "") :
    ((generatePasswords rnd c).OpenShiftOauthClientSecret.length = 64 ∧
      isAlphanumericStr (generatePasswords rnd c).OpenShiftOauthClientSecret = true) ∧
    ((generatePasswords rnd c).Syndesis.Components.Database.Password.length = 16 ∧
      isAlphanumericStr
        (generatePasswords rnd c).Syndesis.Components.Database.Password = true) ∧
    ((generatePasswords rnd c).Syndesis.Components.Database.SampledbPassword.length = 16 ∧
      isAlphanumericStr
        (generatePasswords rnd c).Syndesis.Components.Database.SampledbPassword = true) ∧
    ((generatePasswords rnd c).Syndesis.Components.Oauth.CookieSecret.length = 32 ∧
      isAlphanumericStr
        (generatePasswords rnd c).Syndesis.Components.Oauth.CookieSecret = true) ∧
    ((generatePasswords rnd c).Syndesis.Components.Server.SyndesisEncryptKey.length = 64 ∧
      isAlphanumericStr
        (generatePasswords rnd c).Syndesis.Components.Server.SyndesisEncryptKey = true) ∧
    ((generatePasswords
        rnd c).Syndesis.Components.Server.ClientStateAuthenticationKey.length = 32 ∧
      isAlphanumericStr
        (generatePasswords rnd c).Syndesis.Components.Server.ClientStateAuthenticationKey
        = true) ∧
    ((generatePasswords rnd c).Syndesis.Components.Server.ClientStateEncryptionKey.length
        = 32 ∧
      isAlphanumericStr
        (generatePasswords rnd c).Syndesis.Components.Server.ClientStateEncryptionKey
        = true) := by
  refine ⟨⟨?_, ?_⟩, ⟨?_, ?_⟩, ⟨?_, ?_⟩, ⟨?_, ?_⟩, ⟨?_, ?_⟩, ⟨?_, ?_⟩, ⟨?_, ?_⟩⟩ <;>
    simp [generatePasswords, h1, h2, h3, h4, h5, h6, h7,
      randomAlphanumericString_length, isAlphanumericStr_randomAlphanumericString]

/-- Witness for C2, on the all-empty configuration of
`Test_generatePasswords`' first case. -/
theorem generatePasswords_lengths_witness :
    ((generatePasswords (fun _ => 0) {}).OpenShiftOauthClientSecret.length = 64 ∧
      isAlphanumericStr (generatePasswords (fun _ => 0) {}).OpenShiftOauthClientSecret
        = true) ∧
    ((generatePasswords (fun _ => 0) {}).Syndesis.Components.Database.Password.length
        = 16 ∧
      isAlphanumericStr
        (generatePasswords (fun _ => 0) {}).Syndesis.Components.Database.Password
        = true) ∧
    ((generatePasswords
        (fun _ => 0) {}).Syndesis.Components.Database.SampledbPassword.length = 16 ∧
      isAlphanumericStr
        (generatePasswords (fun _ => 0) {}).Syndesis.Components.Database.SampledbPassword
        = true) ∧
    ((generatePasswords (fun _ => 0) {}).Syndesis.Components.Oauth.CookieSecret.length
        = 32 ∧
      isAlphanumericStr
        (generatePasswords (fun _ => 0) {}).Syndesis.Components.Oauth.CookieSecret
        = true) ∧
    ((generatePasswords
        (fun _ => 0) {}).Syndesis.Components.Server.SyndesisEncryptKey.length = 64 ∧
      isAlphanumericStr
        (generatePasswords (fun _ => 0) {}).Syndesis.Components.Server.SyndesisEncryptKey
        = true) ∧
    ((generatePasswords
        (fun _ => 0) {}).Syndesis.Components.Server.ClientStateAuthenticationKey.length
        = 32 ∧
      isAlphanumericStr
        (generatePasswords
          (fun _ => 0) {}).Syndesis.Components.Server.ClientStateAuthenticationKey
        = true) ∧
    ((generatePasswords
        (fun _ => 0) {}).Syndesis.Components.Server.ClientStateEncryptionKey.length
        = 32 ∧
      isAlphanumericStr
        (generatePasswords
          (fun _ => 0) {}).Syndesis.Components.Server.ClientStateEncryptionKey
        = true) :=
  generatePasswords_lengths (fun _ => 0) {} rfl rfl rfl rfl rfl rfl rfl

/-- C4: custom-resource overlay precedence — every field that is non-zero
in the document (non-empty string, true flag) ends up in the output with
exactly the document's value, whatever the destination held; every field
at its zero value in the document leaves the destination's current value
in place. -/
theorem setSyndesisFromCustomResource_precedence (c : Config) (cr : CrSyndesis) :
    (cr.Spec.ImageStreamNamespace ≠ "" →
      (setSyndesisFromCustomResource c cr).ImageStreamNamespace =
        cr.Spec.ImageStreamNamespace) ∧
    (cr.Spec.ImageStreamNamespace = "" →
      (setSyndesisFromCustomResource c cr).ImageStreamNamespace =
        c.ImageStreamNamespace) ∧
    (cr.Spec.Addons.Jaeger.Enabled = true →
      (setSyndesisFromCustomResource c cr).Syndesis.Addons.Jaeger.Enabled = true) ∧
    (cr.Spec.Addons.Jaeger.Enabled = false →
      (setSyndesisFromCustomResource c cr).Syndesis.Addons.Jaeger.Enabled =
        c.Syndesis.Addons.Jaeger.Enabled) ∧
    (cr.Spec.Addons.Jaeger.SamplerType ≠ "" →
      (setSyndesisFromCustomResource c cr).Syndesis.Addons.Jaeger.SamplerType =
        cr.Spec.Addons.Jaeger.SamplerType) ∧
    (cr.Spec.Addons.Jaeger.SamplerType = "" →
      (setSyndesisFromCustomResource c cr).Syndesis.Addons.Jaeger.SamplerType =
        c.Syndesis.Addons.Jaeger.SamplerType) ∧
    (cr.Spec.Addons.Jaeger.SamplerParam ≠ "" →
      (setSyndesisFromCustomResource c cr).Syndesis.Addons.Jaeger.SamplerParam =
        cr.Spec.Addons.Jaeger.SamplerParam) ∧
    (cr.Spec.Addons.Jaeger.SamplerParam = "" →
      (setSyndesisFromCustomResource c cr).Syndesis.Addons.Jaeger.SamplerParam =
        c.Syndesis.Addons.Jaeger.SamplerParam) ∧
    (cr.Spec.Addons.Ops.Enabled = true →
      (setSyndesisFromCustomResource c cr).Syndesis.Addons.Ops.Enabled = true) ∧
    (cr.Spec.Addons.Ops.Enabled = false →
      (setSyndesisFromCustomResource c cr).Syndesis.Addons.Ops.Enabled =
        c.Syndesis.Addons.Ops.Enabled) ∧
    (cr.Spec.Addons.Todo.Enabled = true →
      (setSyndesisFromCustomResource c cr).Syndesis.Addons.Todo.Enabled = true) ∧
    (cr.Spec.Addons.Todo.Enabled = false →
      (setSyndesisFromCustomResource c cr).Syndesis.Addons.Todo.Enabled =
        c.Syndesis.Addons.Todo.Enabled) ∧
    (cr.Spec.Addons.Knative.Enabled = true →
      (setSyndesisFromCustomResource c cr).Syndesis.Addons.Knative.Enabled = true) ∧
    (cr.Spec.Addons.Knative.Enabled = false →
      (setSyndesisFromCustomResource c cr).Syndesis.Addons.Knative.Enabled =
        c.Syndesis.Addons.Knative.Enabled) ∧
    (cr.Spec.Addons.DV.Enabled = true →
      (setSyndesisFromCustomResource c cr).Syndesis.Addons.DV.Enabled = true) ∧
    (cr.Spec.Addons.DV.Enabled = false →
      (setSyndesisFromCustomResource c cr).Syndesis.Addons.DV.Enabled =
        c.Syndesis.Addons.DV.Enabled) ∧
    (cr.Spec.Addons.DV.Resources.Memory ≠ "" →
      (setSyndesisFromCustomResource c cr).Syndesis.Addons.DV.Resources.Memory =
        cr.Spec.Addons.DV.Resources.Memory) ∧
    (cr.Spec.Addons.DV.Resources.Memory = "" →
      (setSyndesisFromCustomResource c cr).Syndesis.Addons.DV.Resources.Memory =
        c.Syndesis.Addons.DV.Resources.Memory) ∧
    (cr.Spec.Addons.CamelK.Enabled = true →
      (setSyndesisFromCustomResource c cr).Syndesis.Addons.CamelK.Enabled = true) ∧
    (cr.Spec.Addons.CamelK.Enabled = false →
      (setSyndesisFromCustomResource c cr).Syndesis.Addons.CamelK.Enabled =
        c.Syndesis.Addons.CamelK.Enabled) := by
  refine ⟨fun h => ?_, fun h => ?_, fun h => ?_, fun h => ?_, fun h => ?_,
    fun h => ?_, fun h => ?_, fun h => ?_, fun h => ?_, fun h => ?_,
    fun h => ?_, fun h => ?_, fun h => ?_, fun h => ?_, fun h => ?_,
    fun h => ?_, fun h => ?_, fun h => ?_, fun h => ?_, fun h => ?_⟩ <;>
    simp [setSyndesisFromCustomResource, overlayAddons, overlayJaeger,
      overlayAddon, overlayDv, overlayCamelK, overlayString, overlayBool, h]

/-- Witness for C4: the all-set document overrides every field, the empty
document retains every field of the template configuration. -/
theorem setSyndesisFromCustomResource_precedence_witness :
    (setSyndesisFromCustomResource getConfigLiteral crAllSet).ImageStreamNamespace =
      crAllSet.Spec.ImageStreamNamespace ∧
    (setSyndesisFromCustomResource getConfigLiteral
        crAllSet).Syndesis.Addons.Jaeger.Enabled = true ∧
    (setSyndesisFromCustomResource getConfigLiteral
        crAllSet).Syndesis.Addons.Jaeger.SamplerType =
      crAllSet.Spec.Addons.Jaeger.SamplerType ∧
    (setSyndesisFromCustomResource getConfigLiteral
        crAllSet).Syndesis.Addons.Jaeger.SamplerParam =
      crAllSet.Spec.Addons.Jaeger.SamplerParam ∧
    (setSyndesisFromCustomResource getConfigLiteral
        crAllSet).Syndesis.Addons.Ops.Enabled = true ∧
    (setSyndesisFromCustomResource getConfigLiteral
        crAllSet).Syndesis.Addons.Todo.Enabled = true ∧
    (setSyndesisFromCustomResource getConfigLiteral
        crAllSet).Syndesis.Addons.Knative.Enabled = true ∧
    (setSyndesisFromCustomResource getConfigLiteral
        crAllSet).Syndesis.Addons.DV.Enabled = true ∧
    (setSyndesisFromCustomResource getConfigLiteral
        crAllSet).Syndesis.Addons.DV.Resources.Memory =
      crAllSet.Spec.Addons.DV.Resources.Memory ∧
    (setSyndesisFromCustomResource getConfigLiteral
        crAllSet).Syndesis.Addons.CamelK.Enabled = true ∧
    (setSyndesisFromCustomResource getConfigLiteral ({} : CrSyndesis)).ImageStreamNamespace =
      getConfigLiteral.ImageStreamNamespace ∧
    (setSyndesisFromCustomResource getConfigLiteral
        ({} : CrSyndesis)).Syndesis.Addons.Jaeger.Enabled =
      getConfigLiteral.Syndesis.Addons.Jaeger.Enabled ∧
    (setSyndesisFromCustomResource getConfigLiteral
        ({} : CrSyndesis)).Syndesis.Addons.Jaeger.SamplerType =
      getConfigLiteral.Syndesis.Addons.Jaeger.SamplerType ∧
    (setSyndesisFromCustomResource getConfigLiteral
        ({} : CrSyndesis)).Syndesis.Addons.Jaeger.SamplerParam =
      getConfigLiteral.Syndesis.Addons.Jaeger.SamplerParam ∧
    (setSyndesisFromCustomResource getConfigLiteral
        ({} : CrSyndesis)).Syndesis.Addons.Ops.Enabled =
      getConfigLiteral.Syndesis.Addons.Ops.Enabled ∧
    (setSyndesisFromCustomResource getConfigLiteral
        ({} : CrSyndesis)).Syndesis.Addons.Todo.Enabled =
      getConfigLiteral.Syndesis.Addons.Todo.Enabled ∧
    (setSyndesisFromCustomResource getConfigLiteral
        ({} : CrSyndesis)).Syndesis.Addons.Knative.Enabled =
      getConfigLiteral.Syndesis.Addons.Knative.Enabled ∧
    (setSyndesisFromCustomResource getConfigLiteral
        ({} : CrSyndesis)).Syndesis.Addons.DV.Enabled =
      getConfigLiteral.Syndesis.Addons.DV.Enabled ∧
    (setSyndesisFromCustomResource getConfigLiteral
        ({} : CrSyndesis)).Syndesis.Addons.DV.Resources.Memory =
      getConfigLiteral.Syndesis.Addons.DV.Resources.Memory ∧
    (setSyndesisFromCustomResource getConfigLiteral
        ({} : CrSyndesis)).Syndesis.Addons.CamelK.Enabled =
      getConfigLiteral.Syndesis.Addons.CamelK.Enabled := by
  obtain ⟨a1, -, a3, -, a5, -, a7, -, a9, -, a11, -, a13, -, a15, -, a17, -, a19, -⟩ :=
    setSyndesisFromCustomResource_precedence getConfigLiteral crAllSet
  obtain ⟨-, b2, -, b4, -, b6, -, b8, -, b10, -, b12, -, b14, -, b16, -, b18, -, b20⟩ :=
    setSyndesisFromCustomResource_precedence getConfigLiteral ({} : CrSyndesis)
  exact ⟨a1 (by decide), a3 (by decide), a5 (by decide), a7 (by decide),
    a9 (by decide), a11 (by decide), a13 (by decide), a15 (by decide),
    a17 (by decide), a19 (by decide), b2 (by decide), b4 (by decide),
    b6 (by decide), b8 (by decide), b10 (by decide), b12 (by decide),
    b14 (by decide), b16 (by decide), b18 (by decide), b20 (by decide)⟩

/-- C8: the Environment Overlay is an allow-list — each recognized
variable, when present, overwrites exactly its own field with the
variable's value (the parsed boolean for the two flags), each unset
variable leaves its field unchanged, and with an empty environment the
configuration comes back identical. -/
theorem setConfigFromEnv_allow_list (env : EnvMap) (c : Config) :
    (∀ v, env "DEV_SUPPORT" = some v →
      (setConfigFromEnv env c).DevSupport = (v == "true")) ∧
    (env "DEV_SUPPORT" = none →
      (setConfigFromEnv env c).DevSupport = c.DevSupport) ∧
    (∀ v, env "TEST_SUPPORT" = some v →
      (setConfigFromEnv env c).Syndesis.Components.Server.Features.TestSupport =
        (v == "true")) ∧
    (env "TEST_SUPPORT" = none →
      (setConfigFromEnv env c).Syndesis.Components.Server.Features.TestSupport =
        c.Syndesis.Components.Server.Features.TestSupport) ∧
    (∀ v, env "ROUTE_HOSTNAME" = some v →
      (setConfigFromEnv env c).RouteHostname = v) ∧
    (env "ROUTE_HOSTNAME" = none →
      (setConfigFromEnv env c).RouteHostname = c.RouteHostname) ∧
    (∀ v, env "DV_IMAGE" = some v →
      (setConfigFromEnv env c).Syndesis.Addons.DV.Image = v) ∧
    (env "DV_IMAGE" = none →
      (setConfigFromEnv env c).Syndesis.Addons.DV.Image =
        c.Syndesis.Addons.DV.Image) ∧
    (∀ v, env "OAUTH_IMAGE" = some v →
      (setConfigFromEnv env c).Syndesis.Components.Oauth.Image = v) ∧
    (env "OAUTH_IMAGE" = none →
      (setConfigFromEnv env c).Syndesis.Components.Oauth.Image =
        c.Syndesis.Components.Oauth.Image) ∧
    (∀ v, env "UI_IMAGE" = some v →
      (setConfigFromEnv env c).Syndesis.Components.UI.Image = v) ∧
    (env "UI_IMAGE" = none →
      (setConfigFromEnv env c).Syndesis.Components.UI.Image =
        c.Syndesis.Components.UI.Image) ∧
    (∀ v, env "S2I_IMAGE" = some v →
      (setConfigFromEnv env c).Syndesis.Components.S2I.Image = v) ∧
    (env "S2I_IMAGE" = none →
      (setConfigFromEnv env c).Syndesis.Components.S2I.Image =
        c.Syndesis.Components.S2I.Image) ∧
    (∀ v, env "PROMETHEUS_IMAGE" = some v →
      (setConfigFromEnv env c).Syndesis.Components.Prometheus.Image = v) ∧
    (env "PROMETHEUS_IMAGE" = none →
      (setConfigFromEnv env c).Syndesis.Components.Prometheus.Image =
        c.Syndesis.Components.Prometheus.Image) ∧
    (∀ v, env "UPGRADE_IMAGE" = some v →
      (setConfigFromEnv env c).Syndesis.Components.Upgrade.Image = v) ∧
    (env "UPGRADE_IMAGE" = none →
      (setConfigFromEnv env c).Syndesis.Components.Upgrade.Image =
        c.Syndesis.Components.Upgrade.Image) ∧
    (∀ v, env "META_IMAGE" = some v →
      (setConfigFromEnv env c).Syndesis.Components.Meta.Image = v) ∧
    (env "META_IMAGE" = none →
      (setConfigFromEnv env c).Syndesis.Components.Meta.Image =
        c.Syndesis.Components.Meta.Image) ∧
    (∀ v, env "DATABASE_IMAGE" = some v →
      (setConfigFromEnv env c).Syndesis.Components.Database.Image = v) ∧
    (env "DATABASE_IMAGE" = none →
      (setConfigFromEnv env c).Syndesis.Components.Database.Image =
        c.Syndesis.Components.Database.Image) ∧
    (∀ v, env "DATABASE_NAMESPACE" = some v →
      (setConfigFromEnv env c).Syndesis.Components.Database.ImageStreamNamespace = v) ∧
    (env "DATABASE_NAMESPACE" = none →
      (setConfigFromEnv env c).Syndesis.Components.Database.ImageStreamNamespace =
        c.Syndesis.Components.Database.ImageStreamNamespace) ∧
    (∀ v, env "PSQL_EXPORTER_IMAGE" = some v →
      (setConfigFromEnv env c).Syndesis.Components.Database.Exporter.Image = v) ∧
    (env "PSQL_EXPORTER_IMAGE" = none →
      (setConfigFromEnv env c).Syndesis.Components.Database.Exporter.Image =
        c.Syndesis.Components.Database.Exporter.Image) ∧
    (∀ v, env "SERVER_IMAGE" = some v →
      (setConfigFromEnv env c).Syndesis.Components.Server.Image = v) ∧
    (env "SERVER_IMAGE" = none →
      (setConfigFromEnv env c).Syndesis.Components.Server.Image =
        c.Syndesis.Components.Server.Image) ∧
    setConfigFromEnv (fun _ => none) c = c := by
  refine ⟨fun v h => ?_, fun h => ?_, fun v h => ?_, fun h => ?_, fun v h => ?_,
    fun h => ?_, fun v h => ?_, fun h => ?_, fun v h => ?_, fun h => ?_,
    fun v h => ?_, fun h => ?_, fun v h => ?_, fun h => ?_, fun v h => ?_,
    fun h => ?_, fun v h => ?_, fun h => ?_, fun v h => ?_, fun h => ?_,
    fun v h => ?_, fun h => ?_, fun v h => ?_, fun h => ?_, fun v h => ?_,
    fun h => ?_, fun v h => ?_, fun h => ?_, rfl⟩ <;>
    simp [setConfigFromEnv, setStringFromEnv, setBoolFromEnv, h]

/-- Witness for C8, on the template configuration: the all-set environment
of `Test_setConfigFromEnv`'s first case for the present-variable halves,
and the empty environment for the rest. -/
theorem setConfigFromEnv_allow_list_witness :
    (setConfigFromEnv envAllSet getConfigLiteral).DevSupport = false ∧
    (setConfigFromEnv envAllSet
        getConfigLiteral).Syndesis.Components.Server.Features.TestSupport = false ∧
    (setConfigFromEnv envAllSet getConfigLiteral).RouteHostname = "ROUTE_HOSTNAME" ∧
    (setConfigFromEnv envAllSet getConfigLiteral).Syndesis.Addons.DV.Image =
      "DV_IMAGE" ∧
    (setConfigFromEnv envAllSet getConfigLiteral).Syndesis.Components.Oauth.Image =
      "OAUTH_IMAGE" ∧
    (setConfigFromEnv envAllSet getConfigLiteral).Syndesis.Components.UI.Image =
      "UI_IMAGE" ∧
    (setConfigFromEnv envAllSet getConfigLiteral).Syndesis.Components.S2I.Image =
      "S2I_IMAGE" ∧
    (setConfigFromEnv envAllSet getConfigLiteral).Syndesis.Components.Prometheus.Image =
      "PROMETHEUS_IMAGE" ∧
    (setConfigFromEnv envAllSet getConfigLiteral).Syndesis.Components.Upgrade.Image =
      "UPGRADE_IMAGE" ∧
    (setConfigFromEnv envAllSet getConfigLiteral).Syndesis.Components.Meta.Image =
      "META_IMAGE" ∧
    (setConfigFromEnv envAllSet getConfigLiteral).Syndesis.Components.Database.Image =
      "DATABASE_IMAGE" ∧
    (setConfigFromEnv envAllSet
        getConfigLiteral).Syndesis.Components.Database.ImageStreamNamespace =
      "DATABASE_NAMESPACE" ∧
    (setConfigFromEnv envAllSet
        getConfigLiteral).Syndesis.Components.Database.Exporter.Image =
      "PSQL_EXPORTER_IMAGE" ∧
    (setConfigFromEnv envAllSet getConfigLiteral).Syndesis.Components.Server.Image =
      "SERVER_IMAGE" ∧
    setConfigFromEnv (fun _ => none) getConfigLiteral = getConfigLiteral := by
  obtain ⟨e1, -, e3, -, e5, -, e7, -, e9, -, e11, -, e13, -, e15, -, e17, -, e19, -,
    e21, -, e23, -, e25, -, e27, -, elast⟩ :=
    setConfigFromEnv_allow_list envAllSet getConfigLiteral
  exact ⟨e1 "DEV_SUPPORT" (by decide), e3 "TEST_SUPPORT" (by decide),
    e5 "ROUTE_HOSTNAME" (by decide), e7 "DV_IMAGE" (by decide),
    e9 "OAUTH_IMAGE" (by decide), e11 "UI_IMAGE" (by decide),
    e13 "S2I_IMAGE" (by decide), e15 "PROMETHEUS_IMAGE" (by decide),
    e17 "UPGRADE_IMAGE" (by decide), e19 "META_IMAGE" (by decide),
    e21 "DATABASE_IMAGE" (by decide), e23 "DATABASE_NAMESPACE" (by decide),
    e25 "PSQL_EXPORTER_IMAGE" (by decide), e27 "SERVER_IMAGE" (by decide), elast⟩

/-- C9: the Template Loader decodes the valid base configuration document
into exactly the canonical default configuration — whose image-reference
fields are all non-empty — with no error, and fails with the
corresponding `DecodeError` on an absent document (for any file store and
path), on unparseable text, and on structurally mis-shaped trees (a scalar
root, a field of the wrong shape). -/
theorem loadFromFile_contract :
    loadFromFile configTestFiles configTestPath = .ok getConfigLiteral ∧
    allImagesNonEmpty getConfigLiteral = true ∧
    (∀ (files : String → Option Document) (path : String),
      files path = none → loadFromFile files path = .error .absent) ∧
    loadFromFile (fun _ => some .malformedText) configTestPath =
      .error .malformed ∧
    decodeConfig (.s "not a mapping") = .error .typeMismatch ∧
    loadFromFile (fun _ => some (.value (.m [("productName", .b true)])))
      configTestPath = .error .typeMismatch := by
  refine ⟨?_, rfl, fun files path h => ?_, rfl, rfl, ?_⟩
  · rfl
  · simp [loadFromFile, h]
  · rfl

/-- Witness for C9: the absent-document case at a concrete empty file
store; the other conjuncts of the theorem are closed already. -/
theorem loadFromFile_contract_witness :
    loadFromFile (fun _ => none) configTestPath = .error .absent :=
  loadFromFile_contract.2.2.1 (fun _ => none) configTestPath rfl

/-- C10 counterexample: with `includeActions` undefined and `canPublish`
true, the claim promises an enabled publish action, but a
`publishActionProps` customization that overrides `disabled` is spread
over the default, so the publish action included as the last element is
disabled. -/
theorem getActions_enabled_counterexample :
    csPublishOnly.canPublishV = true ∧
    propsPublishDisabled.includeActions = none ∧
    propsPublishDisabled.publishActionProps = some { disabledC := some true } ∧
    (getActions csPublishOnly propsPublishDisabled).map
      (fun a => (a.id, a.disabled)) =
      [(VirtualizationActionId.publish, true)] :=
  ⟨rfl, rfl, rfl, rfl⟩

/-- C10 as amended: with `includeActions` undefined, `getActions` always
returns a non-empty list whose last element is the entry of the publish
branch; when `canPublish` is false that entry is the force-disabled
publish action; when `canPublish` is true it is the default (enabled)
publish action if `publishActionProps` is undefined, and otherwise the
publish action as customized by `publishActionProps` — which, being an
object spread, may override any of its properties, `disabled` included.
Whenever `publishActionProps` is undefined the last element carries the
publish identifier. -/
theorem getActions_default_publish_last (cs : CanFlags)
    (props : ActionContainerProps) (h : props.includeActions = none) :
    getActions cs props ≠ [] ∧
    (props.publishActionProps = none →
      (getActions cs props).getLast?.map (fun a => a.id) =
        some VirtualizationActionId.publish) ∧
    (cs.canPublishV = false →
      (getActions cs props).getLast? =
        some (createPublishAction (some { disabledC := some true }))) ∧
    (cs.canPublishV = false →
      (getActions cs props).getLast?.map (fun a => a.disabled) = some true) ∧
    (cs.canPublishV = true → props.publishActionProps = none →
      (getActions cs props).getLast? = some publishAction) ∧
    (cs.canPublishV = true → ∀ p, props.publishActionProps = some p →
      (getActions cs props).getLast? = some (createPublishAction (some p))) := by
  refine ⟨?_, fun hpp => ?_, fun hcp => ?_, fun hcp => ?_, fun hcp hpp => ?_,
    fun hcp p hpp => ?_⟩
  · by_cases hcp : cs.canPublishV <;> simp [getActions, h, hcp]
  · by_cases hcp : cs.canPublishV <;>
      simp [getActions, h, hcp, hpp, List.getLast?_concat, publishAction,
        createPublishAction, applyCustomProps]
  · simp [getActions, h, hcp, List.getLast?_concat]
  · simp [getActions, h, hcp, List.getLast?_concat, createPublishAction,
      applyCustomProps]
  · simp [getActions, h, hcp, hpp, List.getLast?_concat]
  · simp [getActions, h, hcp, hpp, List.getLast?_concat]

/-- Witness for the amended C10, covering both predicate outcomes and both
publish customizations. -/
theorem getActions_default_publish_last_witness :
    getActions csNoPublish {} ≠ [] ∧
    (getActions csNoPublish {}).getLast?.map (fun a => a.id) =
      some VirtualizationActionId.publish ∧
    (getActions csNoPublish {}).getLast? =
      some (createPublishAction (some { disabledC := some true })) ∧
    (getActions csNoPublish {}).getLast?.map (fun a => a.disabled) = some true ∧
    (getActions csPublishOnly {}).getLast? = some publishAction ∧
    (getActions csPublishOnly propsPublishDisabled).getLast? =
      some (createPublishAction (some { disabledC := some true })) := by
  obtain ⟨w1, w2, w3, w4, -, -⟩ :=
    getActions_default_publish_last csNoPublish {} rfl
  have w2' := w2 rfl
  have w5 :=
    (getActions_default_publish_last csPublishOnly {} rfl).2.2.2.2.1 rfl rfl
  have w6 :=
    (getActions_default_publish_last csPublishOnly propsPublishDisabled
      rfl).2.2.2.2.2 rfl { disabledC := some true } rfl
  exact ⟨w1, w2', w3 rfl, w4 rfl, w5, w6⟩

end Syndesis
